import Mathlib

/-!
Shallow embedding of the CourseManagementSystem Flask application
(src/app.py, src/models.py): the four entity tables, the Flask session
dictionary, the login_required / role_required decorators, and the route
handlers register, login, dashboard, create_course, create_student and
enroll_student, with theorems settling the data-integrity and
access-control claims about them.
-/

namespace CMS

/-! ## Data model (src/models.py) -/

/-- Row of the `user` table: id, name, email, password (stored hashed),
role. `created_at` is omitted (no claim mentions timestamps). -/
structure User where
  id : Nat
  name : String
  email : String
  password : String
  role : String
deriving DecidableEq

/-- Row of the `course` table (models.py lines 25-32). -/
structure Course where
  id : Nat
  title : String
  code : String
  description : String
  credits : Int
  instructor_id : Nat
deriving DecidableEq

/-- Row of the `student` table (models.py lines 37-46). -/
structure Student where
  id : Nat
  name : String
  email : String
  student_id : String
  major : String
deriving DecidableEq

/-- Row of the `enrollment` table (models.py lines 48-53); `grade` and
`enrolled_at` are omitted (no claim mentions them). -/
structure Enrollment where
  id : Nat
  student_id : Nat
  course_id : Nat
deriving DecidableEq

/-- The relational store: the four tables. Primary keys are auto-assigned
as list length + 1. -/
structure DB where
  users : List User
  courses : List Course
  students : List Student
  enrollments : List Enrollment
deriving DecidableEq

/-- The Flask session dictionary. app.py only ever stores the keys
`user_id`, `user_name` and `user_role` (login, lines 65-67); a field
holds `none` when its key is absent from the dictionary. `user_email`
is included because dashboard (line 117) reads `session.get('user_email')`,
a key no handler ever writes. -/
structure SessionMap where
  user_id : Option Nat
  user_name : Option String
  user_role : Option String
  user_email : Option String
deriving DecidableEq

/-- A fresh Flask session: no keys set. -/
def emptySession : SessionMap := ⟨none, none, none, none⟩

/-! ## Responses and results -/

/-- Dashboard statistics passed to the template (app.py lines 122-125). -/
structure DashboardStats where
  total_courses : Nat
  total_students : Nat
  user_courses : Nat
deriving DecidableEq

/-- The response a handler produces: a redirect, a rendered template,
a rendered dashboard carrying its stats, or an unhandled storage-layer
constraint failure escaping the handler. -/
inductive Resp where
  | redirect (target : String)
  | render (template : String)
  | renderStats (template : String) (stats : DashboardStats)
  | referentialCrash
deriving DecidableEq

/-- Outcome of one request: the database and session afterwards, the
flash messages emitted, and the response. -/
structure RouteResult where
  db : DB
  sess : SessionMap
  flash : List String
  resp : Resp
deriving DecidableEq

/-- A route handler: database and session before the request, whether the
request is a POST, and the parsed form data. -/
def Handler (φ : Type) : Type := DB → SessionMap → Bool → φ → RouteResult

/-! ## Password hashing -/

/-- Modelled from the spec: werkzeug's `generate_password_hash` is an
external collaborator, treated as an opaque one-way hash; its only
contract here is that `check_password_hash` verifies it. -/
def generate_password_hash (p : String) : String := "sha256$" ++ p

/-- Modelled from the spec: werkzeug's `check_password_hash`, the
verifier matching `generate_password_hash`. -/
def check_password_hash (h p : String) : Bool := h == generate_password_hash p

/-! ## Query helpers (SQLAlchemy query-by-field, first / count) -/

/-- `User.query.filter_by(email=e).first()` -/
def findUserByEmail (db : DB) (e : String) : Option User :=
  db.users.find? (fun u => u.email == e)

/-- `Course.query.filter_by(code=c).first()` -/
def findCourseByCode (db : DB) (c : String) : Option Course :=
  db.courses.find? (fun k => k.code == c)

/-- `Student.query.filter_by(email=e).first()` -/
def findStudentByEmail (db : DB) (e : String) : Option Student :=
  db.students.find? (fun s => s.email == e)

/-- `Student.query.filter_by(student_id=sid).first()` -/
def findStudentBySid (db : DB) (sid : String) : Option Student :=
  db.students.find? (fun s => s.student_id == sid)

/-- `Enrollment.query.filter_by(student_id=s, course_id=c).first()` -/
def findEnrollment (db : DB) (s c : Nat) : Option Enrollment :=
  db.enrollments.find? (fun e => e.student_id == s && e.course_id == c)

/-! ## Access-control decorators (app.py lines 25-44) -/

/-- `login_required` (app.py lines 25-32): if `user_id` is not in the
session, flash and redirect to login; otherwise run the wrapped handler. -/
def login_required (f : Handler φ) : Handler φ :=
  fun db sess isPost form =>
    if sess.user_id = none then
      ⟨db, sess, ["Please log in to access this page."], .redirect "login"⟩
    else f db sess isPost form

/-- `role_required(role)` (app.py lines 35-44): if `user_role` is not in
the session or differs from `role`, flash and redirect to dashboard;
otherwise run the wrapped handler. -/
def role_required (role : String) (f : Handler φ) : Handler φ :=
  fun db sess isPost form =>
    if sess.user_role ≠ some role then
      ⟨db, sess, ["You do not have permission to access this page."],
        .redirect "dashboard"⟩
    else f db sess isPost form

/-! ## Route handlers (app.py) -/

/-- Form fields read by `login` (app.py lines 59-60). -/
structure LoginForm where
  email : String
  password : String
deriving DecidableEq

/-- `login` (app.py lines 53-73). -/
def login (db : DB) (sess : SessionMap) (isPost : Bool) (form : LoginForm) :
    RouteResult :=
  if sess.user_id ≠ none then ⟨db, sess, [], .redirect "dashboard"⟩
  else if isPost then
    match findUserByEmail db form.email with
    | some u =>
      if check_password_hash u.password form.password then
        ⟨db,
         { sess with
            user_id := some u.id, user_name := some u.name,
            user_role := some u.role },
         ["Login successful!"], .redirect "dashboard"⟩
      else ⟨db, sess, ["Invalid email or password."], .render "login.html"⟩
    | none => ⟨db, sess, ["Invalid email or password."], .render "login.html"⟩
  else ⟨db, sess, [], .render "login.html"⟩

/-- Form fields read by `register` (app.py lines 81-85); `role` is `none`
when the client omits the field, in which case the code defaults it to
"student". -/
structure RegisterForm where
  name : String
  email : String
  password : String
  confirm_password : String
  role : Option String
deriving DecidableEq

/-- `register` (app.py lines 75-104). -/
def register (db : DB) (sess : SessionMap) (isPost : Bool)
    (form : RegisterForm) : RouteResult :=
  if sess.user_id ≠ none then ⟨db, sess, [], .redirect "dashboard"⟩
  else if isPost then
    let role := form.role.getD "student"
    if form.password ≠ form.confirm_password then
      ⟨db, sess, ["Passwords do not match."], .render "register.html"⟩
    else if (findUserByEmail db form.email).isSome then
      ⟨db, sess, ["Email already registered."], .render "register.html"⟩
    else
      let newUser : User :=
        ⟨db.users.length + 1, form.name, form.email,
         generate_password_hash form.password, role⟩
      ⟨{ db with users := db.users ++ [newUser] }, sess,
       ["Registration successful! Please log in."], .redirect "login"⟩
  else ⟨db, sess, [], .render "register.html"⟩

/-- `user_courses` computed by `dashboard` (app.py lines 113-120):
instructors count their own courses; "students" look up a Student row by
`session.get('user_email')` and count its enrollments, defaulting to 0
when no row matches; every other role gets 0. -/
def dashboard_user_courses (db : DB) (sess : SessionMap) : Nat :=
  if sess.user_role = some "instructor" then
    (db.courses.filter
      (fun c => c.instructor_id == sess.user_id.getD 0)).length
  else if sess.user_role = some "student" then
    match db.students.find? (fun s => some s.email == sess.user_email) with
    | some st =>
      (db.enrollments.filter (fun e => e.student_id == st.id)).length
    | none => 0
  else 0

/-- Stats assembled by `dashboard` (app.py lines 108-125). -/
def dashboard_stats (db : DB) (sess : SessionMap) : DashboardStats :=
  ⟨db.courses.length, db.students.length, dashboard_user_courses db sess⟩

/-- `dashboard` route (app.py lines 106-125): login_required wrapping the
stats rendering. -/
def dashboard : Handler Unit :=
  login_required (fun db sess _ _ =>
    ⟨db, sess, [], .renderStats "dashboard.html" (dashboard_stats db sess)⟩)

/-- Form fields read by `create_course` (app.py lines 142-145); `credits`
is `none` when omitted (the code then defaults it to 3). `instructor_id`
records a value a client may post; no line of `create_course` reads it. -/
structure CourseForm where
  title : String
  code : String
  description : String
  credits : Option Int
  instructor_id : Option Nat
deriving DecidableEq

/-- Body of `create_course` (app.py lines 140-165), before decorators. -/
def create_course_body : Handler CourseForm :=
  fun db sess isPost form =>
    if isPost then
      if (findCourseByCode db form.code).isSome then
        ⟨db, sess, ["Course code already exists."],
          .render "create_course.html"⟩
      else
        let newCourse : Course :=
          ⟨db.courses.length + 1, form.title, form.code, form.description,
           form.credits.getD 3, sess.user_id.getD 0⟩
        ⟨{ db with courses := db.courses ++ [newCourse] }, sess,
         ["Course created successfully!"], .redirect "courses"⟩
    else ⟨db, sess, [], .render "create_course.html"⟩

/-- `/course/create` route (app.py lines 137-139): decorators apply
bottom-up, so login_required runs first, then role_required. -/
def create_course : Handler CourseForm :=
  login_required (role_required "instructor" create_course_body)

/-- Form fields read by `create_student` (app.py lines 178-181). -/
structure StudentForm where
  name : String
  email : String
  student_id : String
  major : String
deriving DecidableEq

/-- Body of `create_student` (app.py lines 176-204), before decorators. -/
def create_student_body : Handler StudentForm :=
  fun db sess isPost form =>
    if isPost then
      if (findStudentByEmail db form.email).isSome then
        ⟨db, sess, ["Email already registered."],
          .render "create_student.html"⟩
      else if (findStudentBySid db form.student_id).isSome then
        ⟨db, sess, ["Student ID already exists."],
          .render "create_student.html"⟩
      else
        let newStudent : Student :=
          ⟨db.students.length + 1, form.name, form.email,
           form.student_id, form.major⟩
        ⟨{ db with students := db.students ++ [newStudent] }, sess,
         ["Student created successfully!"], .redirect "students"⟩
    else ⟨db, sess, [], .render "create_student.html"⟩

/-- `/student/create` route (app.py lines 173-175). -/
def create_student : Handler StudentForm :=
  login_required (role_required "admin" create_student_body)

/-- Form fields read by `enroll_student` (app.py lines 211-212). -/
structure EnrollForm where
  student_id : Nat
  course_id : Nat
deriving DecidableEq

/-- Modelled from the spec: the relational engine behind
`db.session.commit()` is an excluded collaborator that "enforces
uniqueness and foreign-key constraints"; committing an Enrollment checks
the foreign keys declared in models.py lines 50-51
(student_id → student.id, course_id → course.id) and fails when either
does not resolve. -/
def commitEnrollment (db : DB) (e : Enrollment) : Except Unit DB :=
  if (db.students.find? (fun s => s.id == e.student_id)).isNone then
    .error ()
  else if (db.courses.find? (fun c => c.id == e.course_id)).isNone then
    .error ()
  else .ok { db with enrollments := db.enrollments ++ [e] }

/-- Body of `enroll_student` (app.py lines 209-236), before decorators:
the duplicate-pair pre-check, then the insert, whose foreign-key failure
escapes the handler leaving the store unchanged. -/
def enroll_student_body : Handler EnrollForm :=
  fun db sess isPost form =>
    if isPost then
      if (findEnrollment db form.student_id form.course_id).isSome then
        ⟨db, sess, ["Student is already enrolled in this course."],
          .redirect "enroll_student"⟩
      else
        match commitEnrollment db
            ⟨db.enrollments.length + 1, form.student_id, form.course_id⟩ with
        | .ok db2 =>
          ⟨db2, sess, ["Student enrolled successfully!"],
            .redirect "dashboard"⟩
        | .error _ => ⟨db, sess, [], .referentialCrash⟩
    else ⟨db, sess, [], .render "enroll_student.html"⟩

/-- `/enroll` route (app.py lines 206-208). -/
def enroll_student : Handler EnrollForm :=
  login_required (role_required "admin" enroll_student_body)

/-! ## Invariants -/

/-- The credits invariant claimed for Course rows: every stored credits
value is a positive integer. -/
def creditsPositive (db : DB) : Prop := ∀ c ∈ db.courses, 0 < c.credits

instance (db : DB) : Decidable (creditsPositive db) :=
  List.decidableBAll _ db.courses

/-! ## Concrete fixtures used by witnesses and counterexamples -/

/-- A store holding one course and one student, no users, no enrollments. -/
def dbOneEach : DB :=
  ⟨[], [⟨1, "Algo", "CS101", "", 3, 7⟩], [⟨1, "Bob", "bob@x.com", "S1", "CS"⟩], []⟩

/-- A session as login builds it for an admin with id 9. -/
def sessAdmin : SessionMap := ⟨some 9, some "Adm", some "admin", none⟩

/-- A session as login builds it for an instructor with id 7. -/
def sessInstr : SessionMap := ⟨some 7, some "Ina", some "instructor", none⟩

/-- A session as login builds it for a user with role student. -/
def sessStudent : SessionMap := ⟨some 3, some "Stu", some "student", none⟩

/-- A store whose only user is Ann, an already-registered student. -/
def dbAnnUser : DB :=
  ⟨[⟨1, "Ann", "ann@x.com", generate_password_hash "p1", "student"⟩],
   [], [], []⟩

/-! ## Claim theorems -/

/-- Claim C1: every successful create_course stores the caller's session
user_id as the new course's instructor_id; the stored row is built only
from the session and the title/code/description/credits fields, so any
instructor_id the client posts is ignored. -/
theorem createCourse_owner_from_session
    (db : DB) (sess : SessionMap) (form : CourseForm) (uid : Nat)
    (hid : sess.user_id = some uid)
    (hrole : sess.user_role = some "instructor")
    (hcode : findCourseByCode db form.code = none) :
    (create_course db sess true form).db.courses =
      db.courses ++
        [⟨db.courses.length + 1, form.title, form.code, form.description,
          form.credits.getD 3, uid⟩] := by
  simp [create_course, login_required, role_required, create_course_body,
    hid, hrole, hcode]

/-- Witness for C1: a client-posted instructor_id of 99 is ignored; the
stored owner is the session's user 7. -/
theorem createCourse_owner_from_session_witness :
    (create_course ⟨[], [], [], []⟩ sessInstr true
        ⟨"Algo", "CS101", "", none, some 99⟩).db.courses =
      [⟨1, "Algo", "CS101", "", 3, 7⟩] :=
  createCourse_owner_from_session ⟨[], [], [], []⟩ sessInstr
    ⟨"Algo", "CS101", "", none, some 99⟩ 7 rfl rfl rfl

/-- Claim C2: a create_student request from an authenticated session whose
role is not admin is rejected by the role guard: the flash and redirect
are the Forbidden ones, and the database — in particular the Students
table — is returned unchanged, the body never having run. -/
theorem createStudent_forbidden_nonadmin
    (db : DB) (sess : SessionMap) (isPost : Bool) (form : StudentForm)
    (hauth : sess.user_id ≠ none)
    (hrole : sess.user_role ≠ some "admin") :
    create_student db sess isPost form =
      ⟨db, sess, ["You do not have permission to access this page."],
        .redirect "dashboard"⟩ := by
  simp [create_student, login_required, role_required, hauth, hrole]

/-- Witness for C2: a student-role session posting a valid student form is
rejected and the store is unchanged. -/
theorem createStudent_forbidden_nonadmin_witness :
    create_student dbOneEach sessStudent true ⟨"Cal", "cal@x.com", "S2", ""⟩ =
      ⟨dbOneEach, sessStudent,
        ["You do not have permission to access this page."],
        .redirect "dashboard"⟩ :=
  createStudent_forbidden_nonadmin dbOneEach sessStudent true
    ⟨"Cal", "cal@x.com", "S2", ""⟩ (by decide) (by decide)

/-- Claim C9: guards run authentication-first. With no session, each of
the three doubly-guarded routes answers with the login redirect and the
login flash — never the Forbidden dashboard redirect — and leaves the
store untouched. -/
theorem guards_authentication_first
    (db : DB) (isPost : Bool) (cf : CourseForm) (sf : StudentForm)
    (ef : EnrollForm) :
    create_course db emptySession isPost cf =
      ⟨db, emptySession, ["Please log in to access this page."],
        .redirect "login"⟩ ∧
    create_student db emptySession isPost sf =
      ⟨db, emptySession, ["Please log in to access this page."],
        .redirect "login"⟩ ∧
    enroll_student db emptySession isPost ef =
      ⟨db, emptySession, ["Please log in to access this page."],
        .redirect "login"⟩ :=
  ⟨rfl, rfl, rfl⟩

/-- Claim C10: with a session already present, /register and /login do
nothing: the store and session are returned as they were, no flash is
emitted, and the response is the dashboard redirect — for GET and POST
alike, whatever the form holds. -/
theorem register_login_noop_when_logged_in
    (db : DB) (sess : SessionMap) (isPost : Bool)
    (rf : RegisterForm) (lf : LoginForm) (uid : Nat)
    (h : sess.user_id = some uid) :
    register db sess isPost rf = ⟨db, sess, [], .redirect "dashboard"⟩ ∧
    login db sess isPost lf = ⟨db, sess, [], .redirect "dashboard"⟩ := by
  constructor <;> simp [register, login, h]

/-- Witness for C10: a logged-in admin POSTing a fresh registration and a
valid login changes nothing. -/
theorem register_login_noop_when_logged_in_witness :
    register dbAnnUser sessAdmin true ⟨"Eve", "eve@x.com", "p", "p", none⟩ =
      ⟨dbAnnUser, sessAdmin, [], .redirect "dashboard"⟩ ∧
    login dbAnnUser sessAdmin true ⟨"ann@x.com", "p1"⟩ =
      ⟨dbAnnUser, sessAdmin, [], .redirect "dashboard"⟩ :=
  register_login_noop_when_logged_in dbAnnUser sessAdmin true
    ⟨"Eve", "eve@x.com", "p", "p", none⟩ ⟨"ann@x.com", "p1"⟩ 9 rfl

/-- Claim C3: an admin's enroll POST whose student_id or course_id does
not resolve to an existing row fails at the storage layer's foreign-key
check: the failure escapes the handler as a referential error and the
store — in particular the Enrollment table — is unchanged. -/
theorem enroll_referential_error
    (db : DB) (sess : SessionMap) (form : EnrollForm)
    (hauth : sess.user_id ≠ none)
    (hrole : sess.user_role = some "admin")
    (hpair : findEnrollment db form.student_id form.course_id = none)
    (href : (db.students.find? (fun s => s.id == form.student_id)) = none ∨
            (db.courses.find? (fun c => c.id == form.course_id)) = none) :
    enroll_student db sess true form = ⟨db, sess, [], .referentialCrash⟩ := by
  rcases href with h | h
  · simp [enroll_student, login_required, role_required, enroll_student_body,
      commitEnrollment, hauth, hrole, hpair, h]
  · cases hs : db.students.find? (fun s => s.id == form.student_id) with
    | none =>
      simp [enroll_student, login_required, role_required,
        enroll_student_body, commitEnrollment, hauth, hrole, hpair, hs]
    | some s =>
      simp [enroll_student, login_required, role_required,
        enroll_student_body, commitEnrollment, hauth, hrole, hpair, hs, h]

/-- Witness for C3: enrolling student 5 (nonexistent) in course 1 against
the one-course one-student store fails referentially, adding no row. -/
theorem enroll_referential_error_witness :
    enroll_student dbOneEach sessAdmin true ⟨5, 1⟩ =
      ⟨dbOneEach, sessAdmin, [], .referentialCrash⟩ :=
  enroll_referential_error dbOneEach sessAdmin ⟨5, 1⟩
    (by decide) rfl rfl (Or.inl (by decide))

/-- Claim C5: from a state where the student and course exist and the
pair is not yet enrolled, the first admin enroll succeeds and appends
exactly the one new row, the second enroll with the same pair is refused
by the duplicate pre-check with the AlreadyEnrolled flash and changes
nothing, and the resulting table holds exactly one row for the pair. -/
theorem enroll_twice_one_row
    (db : DB) (sess : SessionMap) (sid cid : Nat)
    (hauth : sess.user_id ≠ none)
    (hrole : sess.user_role = some "admin")
    (hs : (db.students.find? (fun s => s.id == sid)).isSome = true)
    (hc : (db.courses.find? (fun c => c.id == cid)).isSome = true)
    (hn : findEnrollment db sid cid = none) :
    enroll_student db sess true ⟨sid, cid⟩ =
      ⟨{ db with enrollments :=
            db.enrollments ++ [⟨db.enrollments.length + 1, sid, cid⟩] },
        sess, ["Student enrolled successfully!"], .redirect "dashboard"⟩ ∧
    enroll_student
        (enroll_student db sess true ⟨sid, cid⟩).db sess true ⟨sid, cid⟩ =
      ⟨(enroll_student db sess true ⟨sid, cid⟩).db, sess,
        ["Student is already enrolled in this course."],
        .redirect "enroll_student"⟩ ∧
    ((enroll_student db sess true ⟨sid, cid⟩).db.enrollments.filter
        (fun e => e.student_id == sid && e.course_id == cid)).length = 1 := by
  obtain ⟨s, hs'⟩ := Option.isSome_iff_exists.mp hs
  obtain ⟨c, hc'⟩ := Option.isSome_iff_exists.mp hc
  have hn' : db.enrollments.find?
      (fun e => e.student_id == sid && e.course_id == cid) = none := hn
  have hp : (fun (e : Enrollment) => e.student_id == sid && e.course_id == cid)
      ⟨db.enrollments.length + 1, sid, cid⟩ = true := by simp
  have h1 : enroll_student db sess true ⟨sid, cid⟩ =
      ⟨{ db with enrollments :=
            db.enrollments ++ [⟨db.enrollments.length + 1, sid, cid⟩] },
        sess, ["Student enrolled successfully!"], .redirect "dashboard"⟩ := by
    simp [enroll_student, login_required, role_required, enroll_student_body,
      commitEnrollment, hauth, hrole, hn, hs', hc']
  have hfind : findEnrollment
      { db with enrollments :=
          db.enrollments ++ [⟨db.enrollments.length + 1, sid, cid⟩] }
      sid cid = some ⟨db.enrollments.length + 1, sid, cid⟩ := by
    unfold findEnrollment
    rw [List.find?_append, hn', Option.none_or]
    simp
  refine ⟨h1, ?_, ?_⟩
  · rw [h1]
    simp [enroll_student, login_required, role_required, enroll_student_body,
      hauth, hrole, hfind]
  · rw [h1]
    have hfil : db.enrollments.filter
        (fun e => e.student_id == sid && e.course_id == cid) = [] := by
      rw [List.filter_eq_nil_iff]
      exact fun a ha => List.find?_eq_none.mp hn' a ha
    simp [List.filter_append, hfil, hp]

/-- Witness for C5: enrolling student 1 in course 1 twice against the
one-course one-student store yields exactly one row for the pair. -/
theorem enroll_twice_one_row_witness :
    enroll_student dbOneEach sessAdmin true ⟨1, 1⟩ =
      ⟨{ dbOneEach with enrollments := dbOneEach.enrollments ++ [⟨1, 1, 1⟩] },
        sessAdmin, ["Student enrolled successfully!"],
        .redirect "dashboard"⟩ ∧
    enroll_student (enroll_student dbOneEach sessAdmin true ⟨1, 1⟩).db
        sessAdmin true ⟨1, 1⟩ =
      ⟨(enroll_student dbOneEach sessAdmin true ⟨1, 1⟩).db, sessAdmin,
        ["Student is already enrolled in this course."],
        .redirect "enroll_student"⟩ ∧
    ((enroll_student dbOneEach sessAdmin true ⟨1, 1⟩).db.enrollments.filter
        (fun e => e.student_id == 1 && e.course_id == 1)).length = 1 :=
  enroll_twice_one_row dbOneEach sessAdmin 1 1
    (by decide) rfl (by decide) (by decide) rfl

/-- Counterexample to C6 as stated: a registration attempt whose email is
already taken but whose password confirmation mismatches is rejected by
the password check, which runs first, so the failure surfaced is the
ValidationError flash, not the EmailTaken one. -/
theorem register_email_taken_counterexample :
    (findUserByEmail dbAnnUser "ann@x.com").isSome = true ∧
    register dbAnnUser emptySession true ⟨"Bob", "ann@x.com", "p1", "p2", none⟩ =
      ⟨dbAnnUser, emptySession, ["Passwords do not match."],
        .render "register.html"⟩ ∧
    ["Passwords do not match."] ≠ ["Email already registered."] := by
  refine ⟨rfl, rfl, by decide⟩

/-- Claim C6 amended: a registration attempt with a taken email never
creates a User row, and when it also passes the password-confirmation
check (with no session active) it fails with the EmailTaken flash. -/
theorem register_email_taken_no_row
    (db : DB) (sess : SessionMap) (isPost : Bool) (form : RegisterForm)
    (h : (findUserByEmail db form.email).isSome = true) :
    (register db sess isPost form).db = db ∧
    (sess.user_id = none → form.password = form.confirm_password →
      register db sess true form =
        ⟨db, sess, ["Email already registered."], .render "register.html"⟩) := by
  refine ⟨?_, ?_⟩
  · by_cases h1 : sess.user_id = none
    · by_cases h2 : form.password = form.confirm_password
      · cases isPost <;> simp [register, h1, h2, h]
      · cases isPost <;> simp [register, h1, h2]
    · simp [register, h1]
  · intro h0 hpw
    simp [register, h0, hpw, h]

/-- Witness for C6 amended: re-registering Ann's email with matching
passwords adds no row and flashes EmailTaken. -/
theorem register_email_taken_no_row_witness :
    (register dbAnnUser emptySession true
        ⟨"Bob", "ann@x.com", "p1", "p1", none⟩).db = dbAnnUser ∧
    register dbAnnUser emptySession true ⟨"Bob", "ann@x.com", "p1", "p1", none⟩ =
      ⟨dbAnnUser, emptySession, ["Email already registered."],
        .render "register.html"⟩ :=
  ⟨(register_email_taken_no_row dbAnnUser emptySession true
      ⟨"Bob", "ann@x.com", "p1", "p1", none⟩ rfl).1,
   (register_email_taken_no_row dbAnnUser emptySession true
      ⟨"Bob", "ann@x.com", "p1", "p1", none⟩ rfl).2 rfl rfl⟩

/-- Counterexample to C7 as stated: create_course stores a client-supplied
credits value of 0 verbatim — no positivity validation exists — so a
reachable store violates the positive-credits invariant. -/
theorem course_credits_positive_counterexample :
    ¬ creditsPositive
      (create_course ⟨[], [], [], []⟩ sessInstr true
        ⟨"Algo", "CS101", "", some 0, none⟩).db := by
  decide

/-- Claim C7 amended: a create_course call that supplies no credits stores
credits = 3 (the default); supplied credits are stored verbatim, without
any positivity check. -/
theorem createCourse_credits_default
    (db : DB) (sess : SessionMap) (form : CourseForm) (uid : Nat)
    (hid : sess.user_id = some uid)
    (hrole : sess.user_role = some "instructor")
    (hcode : findCourseByCode db form.code = none)
    (hnone : form.credits = none) :
    (create_course db sess true form).db.courses =
      db.courses ++ [⟨db.courses.length + 1, form.title, form.code,
        form.description, 3, uid⟩] := by
  simp [create_course, login_required, role_required, create_course_body,
    hid, hrole, hcode, hnone]

/-- Witness for C7 amended: omitting credits stores 3. -/
theorem createCourse_credits_default_witness :
    (create_course ⟨[], [], [], []⟩ sessInstr true
        ⟨"Calc", "MA101", "", none, none⟩).db.courses =
      [⟨1, "Calc", "MA101", "", 3, 7⟩] :=
  createCourse_credits_default ⟨[], [], [], []⟩ sessInstr
    ⟨"Calc", "MA101", "", none, none⟩ 7 rfl rfl rfl rfl

/-- Claim C8: register stores the client-supplied role verbatim (default
"student" only when the field is absent); no check restricts it, so any
value — "admin" included — becomes the new User's role. -/
theorem register_role_verbatim
    (db : DB) (sess : SessionMap) (form : RegisterForm)
    (hanon : sess.user_id = none)
    (hpw : form.password = form.confirm_password)
    (hfree : findUserByEmail db form.email = none) :
    (register db sess true form).db.users =
      db.users ++ [⟨db.users.length + 1, form.name, form.email,
        generate_password_hash form.password, form.role.getD "student"⟩] := by
  simp [register, hanon, hpw, hfree]

/-- Witness for C8: self-registering with role "admin" stores role
"admin". -/
theorem register_role_verbatim_witness :
    (register ⟨[], [], [], []⟩ emptySession true
        ⟨"Eve", "eve@x.com", "p", "p", some "admin"⟩).db.users =
      [⟨1, "Eve", "eve@x.com", generate_password_hash "p", "admin"⟩] :=
  register_role_verbatim ⟨[], [], [], []⟩ emptySession
    ⟨"Eve", "eve@x.com", "p", "p", some "admin"⟩ rfl rfl rfl

/-- Store exhibiting the C4 bug: Ann is both a registered User with role
student and a Student roster row with the same email, enrolled in the one
course. -/
def dbAnnEnrolled : DB :=
  ⟨[⟨1, "Ann", "ann@x.com", generate_password_hash "p1", "student"⟩],
   [⟨1, "Algo", "CS101", "", 3, 1⟩],
   [⟨1, "Ann", "ann@x.com", "S1", "CS"⟩],
   [⟨1, 1, 1⟩]⟩

/-- Claim C4 fails on the code: after Ann logs in (role student), a
Student row with her exact email exists and carries one enrollment, yet
the dashboard's myCourses is 0 — login stores no user_email key, so the
student branch's lookup never matches. -/
theorem dashboard_student_myCourses_bug :
    (login dbAnnEnrolled emptySession true ⟨"ann@x.com", "p1"⟩).sess =
      ⟨some 1, some "Ann", some "student", none⟩ ∧
    findStudentByEmail dbAnnEnrolled "ann@x.com" =
      some ⟨1, "Ann", "ann@x.com", "S1", "CS"⟩ ∧
    (dbAnnEnrolled.enrollments.filter (fun e => e.student_id == 1)).length = 1 ∧
    dashboard dbAnnEnrolled
        (login dbAnnEnrolled emptySession true ⟨"ann@x.com", "p1"⟩).sess
        false () =
      ⟨dbAnnEnrolled, ⟨some 1, some "Ann", some "student", none⟩, [],
        .renderStats "dashboard.html" ⟨1, 1, 0⟩⟩ := by
  refine ⟨rfl, rfl, rfl, rfl⟩

end CMS
